import Mathlib

/-!
Verification of `src/weather_app.py`.

A shallow embedding of the weather CLI (`WeatherApp` in `src/weather_app.py`)
together with proofs about its input classification, wind-compass mapping,
report rendering, unit-preference state and fetch error handling.

Modelling conventions:
* Python strings are Lean `String`s; `str.isdigit` / `str.isspace` are
  modelled over the ASCII character classes (the code only ever meets ASCII
  input in its documented usage; Python additionally accepts other Unicode
  digit/space characters, which the same reading of "digit"/"whitespace"
  covers).
* JSON values are the inductive `Json`; machine floats in the response are
  modelled as exact rationals.
* `print` calls are collected into a `List String`, one entry per call.
* The local timezone used by `datetime.fromtimestamp` is passed explicitly
  as a fixed offset `tz` in seconds.
-/

/-- Python `str.isspace` character class (ASCII whitespace). -/
def pyIsSpaceChar (c : Char) : Bool :=
  c = ' ' || c = '\t' || c = '\n' || c = '\r' || c = '\x0b' || c = '\x0c'

/-- Python `s.isspace()`: non-empty and all characters whitespace. -/
def pyIsSpace (s : String) : Bool :=
  !s.toList.isEmpty && s.toList.all pyIsSpaceChar

/-- Python `s.isdigit()`: non-empty and all characters digits (ASCII model). -/
def pyIsDigit (s : String) : Bool :=
  !s.toList.isEmpty && s.toList.all Char.isDigit

/-- Python `s.replace("-", "")`: remove every hyphen. -/
def stripHyphens (s : String) : String :=
  ⟨s.toList.filter (fun c => c ≠ '-')⟩

/-- Python `s.strip()`: drop leading and trailing whitespace. -/
def pyStrip (s : String) : String :=
  ⟨((s.toList.dropWhile pyIsSpaceChar).reverse.dropWhile pyIsSpaceChar).reverse⟩

/-- Python `s.lower()` (ASCII model). -/
def pyLower (s : String) : String :=
  ⟨s.toList.map Char.toLower⟩

/-- Helper for `pyTitle`: `prevAlpha` records whether the previous character
was alphabetic (i.e. whether we are inside a word). -/
def pyTitleAux : Bool → List Char → List Char
  | _, [] => []
  | prevAlpha, c :: cs =>
    (if c.isAlpha then (if prevAlpha then c.toLower else c.toUpper) else c)
      :: pyTitleAux c.isAlpha cs

/-- Python `s.title()`: first letter of each alphabetic run uppercased,
the rest lowercased (ASCII model). -/
def pyTitle (s : String) : String :=
  ⟨pyTitleAux false s.toList⟩

/-- JSON values as returned by `response.json()`.  Numbers are modelled as
exact rationals. -/
inductive Json where
  | null
  | str (s : String)
  | num (q : ℚ)
  | bool (b : Bool)
  | arr (xs : List Json)
  | obj (kvs : List (String × Json))

/-- Python truthiness of a JSON value (`if not weather_data`, `if sunrise`). -/
def Json.truthy : Json → Bool
  | .null => false
  | .str s => !s.toList.isEmpty
  | .num q => decide (q ≠ 0)
  | .bool b => b
  | .arr xs => !xs.isEmpty
  | .obj kvs => !kvs.isEmpty

/-- Is the value a JSON object (Python `dict`)? -/
def Json.isObj : Json → Bool
  | .obj _ => true
  | _ => false

/-- Key lookup in a JSON object (first matching key); `none` on a non-object
or a missing key. -/
def Json.find? : Json → String → Option Json
  | .obj kvs, k => kvs.lookup k
  | _, _ => none

/-- Python `d.get(k, default)`.  On a non-`dict` receiver the Python code
would raise `AttributeError`; the model returns the default instead, and
every general theorem below restricts to well-shaped (`WF`) responses where
the receiver is an object. -/
def pyGetD (j : Json) (k : String) (d : Json) : Json :=
  (j.find? k).getD d

/-- Python `d.get(k)` (default `None`). -/
def pyGetNone (j : Json) (k : String) : Json :=
  pyGetD j k .null

/-- Python `==` between a response value and a scalar sentinel (the code only
ever compares against the literals `200` and `"N/A"`).  Equality between two
composite values is never performed by the code and is not modelled (a
composite never equals a scalar in Python either, which is all that is
exercised here). -/
def Json.beq (a b : Json) : Bool :=
  match a, b with
  | .null, .null => true
  | .str x, .str y => x == y
  | .num x, .num y => x == y
  | .bool x, .bool y => x == y
  | _, _ => false

/-- Extract a string value; the fallback is only reached on inputs where the
Python code would raise `TypeError` (guarded by `WF`). -/
def Json.asStrD (j : Json) (d : String) : String :=
  match j with
  | .str s => s
  | _ => d

/-- Extract a numeric value; the fallback is only reached on inputs where the
Python code would raise `TypeError` (guarded by `WF`). -/
def Json.asRatD (j : Json) (d : ℚ) : ℚ :=
  match j with
  | .num q => q
  | _ => d

/-- Python `str()` of a JSON value as interpolated into an f-string.
Composite values are interpolated via Python `repr`, which no claim touches;
they are modelled opaquely.  Non-integral rationals print in `p/q` form
rather than decimal; no claim constrains the textual form of a non-integral
number. -/
def pyStr : Json → String
  | .null => "None"
  | .str s => s
  | .num q => if q.den = 1 then toString q.num else toString q
  | .bool b => if b then "True" else "False"
  | .arr _ => "<list repr>"
  | .obj _ => "<dict repr>"

/-- Executable floor of a rational (kernel-reducible, unlike the `FloorRing`
instance projection). -/
def ratFloor (q : ℚ) : ℤ :=
  q.num / (q.den : ℤ)

theorem ratFloor_eq (q : ℚ) : ratFloor q = ⌊q⌋ :=
  Rat.floor_def.symm

/-- Python 3 `round` on an exact value: round half to even. -/
def pyRound (x : ℚ) : ℤ :=
  if x - ratFloor x < 1/2 then ratFloor x
  else if 1/2 < x - ratFloor x then ratFloor x + 1
  else if ratFloor x % 2 = 0 then ratFloor x else ratFloor x + 1

/-- Line 126: `directions = ['N', 'NE', 'E', 'SE', 'S', 'SW', 'W', 'NW']`. -/
def directions : List String :=
  ["N", "NE", "E", "SE", "S", "SW", "W", "NW"]

/-- Lines 126-128: `index = round(wind_dir / 45) % 8; directions[index]`. -/
def compass (d : ℚ) : String :=
  directions.getD ((pyRound (d / 45) % 8).toNat) ""

/-- Two-digit zero padding as produced by `strftime` fields. -/
def pad2 (n : ℕ) : String :=
  if n < 10 then "0" ++ toString n else toString n

/-- `datetime.fromtimestamp(t).strftime('%H:%M:%S')` at a fixed local UTC
offset `tz` (seconds).  Fractional seconds are truncated as `strftime` does. -/
def formatHMS (tz : ℤ) (t : ℚ) : String :=
  let sec : ℕ := ((ratFloor t + tz).emod 86400).toNat
  pad2 (sec / 3600) ++ ":" ++ pad2 (sec % 3600 / 60) ++ ":" ++ pad2 (sec % 60)

example : pyStrip "  10001 " = "10001" := by decide
example : stripHyphens "12345-6789" = "123456789" := by decide
example : pyTitle "broken clouds" = "Broken Clouds" := by decide
example : pyTitle "N/A" = "N/A" := by decide
example : compass 0 = "N" := by
  have h : pyRound ((0 : ℚ) / 45) = 0 := by norm_num [pyRound, ratFloor_eq]
  simp only [compass, h]
  decide

example : compass 400 = "NE" := by
  have h : pyRound ((400 : ℚ) / 45) = 9 := by norm_num [pyRound, ratFloor_eq]
  simp only [compass, h]
  decide

example : formatHMS 0 0 = "00:00:00" := by decide

/-- Line 18: `self.units = "metric"` — the default unit preference set in
`WeatherApp.__init__`. -/
def initialUnits : String := "metric"

/-- Line 110: `unit_symbol = "°C" if self.units == "metric" else "°F"`. -/
def unit_symbol (units : String) : String :=
  if units = "metric" then "°C" else "°F"

/-- Lines 58-68: `WeatherApp.set_units` — the value assigned to
`self.units` for a given argument. -/
def set_units (units : String) : String :=
  if ["c", "celsius", "metric"].contains (pyLower units) then "metric"
  else if ["f", "fahrenheit", "imperial"].contains (pyLower units) then "imperial"
  else "metric"

/-- Lines 24-29: the query parameters built by `get_weather_by_city`. -/
def get_weather_by_city_params (api_key units city_name : String) :
    List (String × String) :=
  [("q", city_name), ("appid", api_key), ("units", units), ("lang", "en")]

/-- Lines 43-48: the query parameters built by `get_weather_by_zip`,
with `zip` set to `f"{zip_code},{country_code}"`. -/
def get_weather_by_zip_params (api_key units zip_code country_code : String) :
    List (String × String) :=
  [("zip", zip_code ++ "," ++ country_code), ("appid", api_key),
   ("units", units), ("lang", "en")]

/-- The observable outcome of a `requests.get` call: a connection-level
failure, or a response with an HTTP status code and a body that either
parses as JSON (`some`) or does not (`none`). -/
inductive HttpOutcome where
  | connError
  | response (status : ℕ) (body : Option Json)

/-- Lines 31-37 and 50-56: the `try/except` around `requests.get`,
`response.raise_for_status()` (which raises `HTTPError` exactly for status
codes 400-599) and `response.json()`.  With the `requests` versions current
for the Python 3.11 target, `response.json()` raises
`requests.exceptions.JSONDecodeError`, a `RequestException`, so it is caught
by the same handler; every failure collapses to `None`. -/
def get_weather (outcome : HttpOutcome) : Option Json :=
  match outcome with
  | .connError => none
  | .response status body =>
    if 400 ≤ status ∧ status < 600 then none
    else
      match body with
      | none => none
      | some j => some j

/-- Lines 165-180: `WeatherApp.validate_input`. -/
def validate_input (input_str : String) : Bool × String :=
  if input_str.toList.isEmpty || pyIsSpace input_str then
    (false, "Input cannot be empty.")
  else if pyIsDigit (stripHyphens input_str)
          && 5 ≤ (stripHyphens input_str).toList.length then
    (true, "zip")
  else
    (true, "city")

/-- Lines 219-238: the postal-code path of `WeatherApp.check_weather`.
The location prompt result is stripped, validated, the country prompt
result is stripped and defaulted to `"US"` when empty, and
`get_weather_by_zip` is called with the stripped location verbatim.
Returns `none` when the input is invalid or classified as a city. -/
def check_weather_zip_params (api_key units rawLocation rawCountry : String) :
    Option (List (String × String)) :=
  let location := pyStrip rawLocation
  match validate_input location with
  | (false, _) => none
  | (true, t) =>
    if t = "zip" then
      let c := pyStrip rawCountry
      let country := if c.toList.isEmpty then "US" else c
      some (get_weather_by_zip_params api_key units location country)
    else none

/-- Line 113 and elsewhere: `"=" * 50`. -/
def bar50 : String := ⟨List.replicate 50 '='⟩

/-- Line 136 and elsewhere: `"-" * 30`. -/
def bar30 : String := ⟨List.replicate 30 '-'⟩

/-- Lines 142-154: the condition-keyword-to-icon lookup table. -/
def icons : List (String × String) :=
  [("clear", "☀️"), ("clouds", "☁️"), ("rain", "🌧️"), ("drizzle", "🌦️"),
   ("thunderstorm", "⛈️"), ("snow", "❄️"), ("mist", "🌫️"), ("smoke", "💨"),
   ("haze", "😶‍🌫️"), ("dust", "🌪️"), ("fog", "🌁")]

/-- Lines 89 and 141: `weather_data.get("weather", [{}])[0]`.  Python raises
`IndexError`/`TypeError` on an empty or non-list value; `WF` excludes that
shape. -/
def weather0 (weather_data : Json) : Json :=
  match pyGetD weather_data "weather" (.arr [Json.obj []]) with
  | .arr (x :: _) => x
  | _ => Json.obj []

/-- Lines 82-163: the success branch of `WeatherApp.display_weather`,
one list entry per `print` call. -/
def successLines (units : String) (tz : ℤ) (weather_data : Json) : List String :=
  let city := pyStr (pyGetD weather_data "name" (.str "Unknown"))
  let country := pyStr (pyGetD (pyGetD weather_data "sys" (.obj [])) "country" (.str ""))
  let temp := pyStr (pyGetD (pyGetD weather_data "main" (.obj [])) "temp" (.str "N/A"))
  let feels_like := pyStr (pyGetD (pyGetD weather_data "main" (.obj [])) "feels_like" (.str "N/A"))
  let humidity := pyStr (pyGetD (pyGetD weather_data "main" (.obj [])) "humidity" (.str "N/A"))
  let pressure := pyStr (pyGetD (pyGetD weather_data "main" (.obj [])) "pressure" (.str "N/A"))
  let weather_desc := pyTitle ((pyGetD (weather0 weather_data) "description" (.str "N/A")).asStrD "")
  let wind_speed := pyStr (pyGetD (pyGetD weather_data "wind" (.obj [])) "speed" (.str "N/A"))
  let wind_dir := pyGetD (pyGetD weather_data "wind" (.obj [])) "deg" (.str "N/A")
  let visibility := pyGetD weather_data "visibility" (.str "N/A")
  let sunriseJ := pyGetNone (pyGetD weather_data "sys" (.obj [])) "sunrise"
  let sunsetJ := pyGetNone (pyGetD weather_data "sys" (.obj [])) "sunset"
  let sunrise_time := if sunriseJ.truthy then formatHMS tz (sunriseJ.asRatD 0) else "N/A"
  let sunset_time := if sunsetJ.truthy then formatHMS tz (sunsetJ.asRatD 0) else "N/A"
  let sym := unit_symbol units
  let weather_main := pyLower ((pyGetD (weather0 weather_data) "main" (.str "")).asStrD "")
  let icon := (icons.lookup weather_main).getD "🌈"
  let clouds := pyStr (pyGetD (pyGetD weather_data "clouds" (.obj [])) "all" (.str "N/A"))
  ["\n" ++ bar50,
   "WEATHER FORECAST - " ++ city ++ ", " ++ country,
   bar50,
   "\n🌤️  Current Conditions: " ++ weather_desc,
   "🌡️  Temperature: " ++ temp ++ sym ++ " (Feels like: " ++ feels_like ++ sym ++ ")",
   "💧 Humidity: " ++ humidity ++ "%",
   "📊 Pressure: " ++ pressure ++ " hPa",
   "💨 Wind Speed: " ++ wind_speed ++ " m/s"]
  ++ (if wind_dir.beq (.str "N/A") = false then
        ["🧭 Wind Direction: " ++ compass (wind_dir.asRatD 0) ++ " (" ++ pyStr wind_dir ++ "°)"]
      else [])
  ++ [(if visibility.beq (.str "N/A") = false then
        "👁️  Visibility: " ++ pyStr visibility ++ " meters"
      else "👁️  Visibility: N/A"),
      "🌅 Sunrise: " ++ sunrise_time,
      "🌇 Sunset: " ++ sunset_time,
      "\n" ++ bar30,
      "Additional Details:",
      bar30,
      "Weather Icon: " ++ icon,
      "☁️  Cloud Coverage: " ++ clouds ++ "%",
      bar50 ++ "\n"]

/-- Lines 70-163: `WeatherApp.display_weather`, one list entry per `print`
call.  The local timezone of `datetime.fromtimestamp` is the explicit
offset `tz`. -/
def display_weather (units : String) (tz : ℤ) (weather_data : Json) : List String :=
  if weather_data.truthy = false then
    ["No weather data to display."]
  else if Json.beq (pyGetNone weather_data "cod") (Json.num 200) = false then
    ["Error: " ++ pyStr (pyGetD weather_data "message" (Json.str "Unknown error"))]
  else
    successLines units tz weather_data

/-- The operations of the interactive loop that can read or write the
process-wide state `self.units`.  In the source, `set_units` (lines 62-68)
is the only assignment to `self.units`; fetching and rendering read it
only. -/
inductive Op where
  | setUnits (u : String)
  | fetchCity (name : String)
  | fetchZip (code country : String)
  | render (tz : ℤ) (data : Json)

/-- Whether an operation is a `set_units` call. -/
def Op.isSetUnits : Op → Bool
  | .setUnits _ => true
  | _ => false

/-- Effect of one loop operation on `self.units`. -/
def stepUnits (units : String) : Op → String
  | .setUnits u => set_units u
  | _ => units

/-- The `weather` field, when present, is a non-empty list whose head is an
object (else `weather_data.get("weather", [{}])[0]` raises). -/
def weatherFieldOK (r : Json) : Bool :=
  match r.find? "weather" with
  | none => true
  | some (.arr (x :: _)) => x.isObj
  | some _ => false

/-- The `wind.deg` field, when present, is numeric (else `round(wind_dir/45)`
raises). -/
def degOK (r : Json) : Bool :=
  match (pyGetD r "wind" (.obj [])).find? "deg" with
  | none => true
  | some (.num _) => true
  | some _ => false

/-- A `sys.sunrise` / `sys.sunset` field, when present, is null or numeric
(else `datetime.fromtimestamp` raises). -/
def sunOK (r : Json) (k : String) : Bool :=
  match (pyGetD r "sys" (.obj [])).find? k with
  | none => true
  | some .null => true
  | some (.num _) => true
  | some _ => false

/-- A string-typed field, when present, is a string (else `.title()` or
`.lower()` raises). -/
def strFieldOK (j : Json) (k : String) : Bool :=
  match j.find? k with
  | none => true
  | some (.str _) => true
  | some _ => false

/-- Well-shaped responses: exactly the JSON shapes on which the Python
rendering code runs without raising (`.get` receivers are objects,
`weather[0]` indexes a non-empty list, `.title()`/`.lower()` receive
strings, `round` and `fromtimestamp` receive numbers).  On a shape outside
`WF` the Python code raises out of `display_weather` instead of printing a
report; the total model is therefore only ever used under `WF`. -/
def WF (r : Json) : Bool :=
  r.isObj
  && (pyGetD r "sys" (.obj [])).isObj
  && (pyGetD r "main" (.obj [])).isObj
  && (pyGetD r "wind" (.obj [])).isObj
  && (pyGetD r "clouds" (.obj [])).isObj
  && weatherFieldOK r
  && strFieldOK (weather0 r) "description"
  && strFieldOK (weather0 r) "main"
  && degOK r
  && sunOK r "sunrise"
  && sunOK r "sunset"

example : validate_input "10001" = (true, "zip") := by decide
example : validate_input "New York" = (true, "city") := by decide
example : validate_input "   " = (false, "Input cannot be empty.") := by decide
example : validate_input "12345-6789" = (true, "zip") := by decide
example : validate_input "1234" = (true, "city") := by decide
example : set_units "fahrenheit" = "imperial" := by decide
example : WF (Json.obj [("cod", Json.num 200)]) = true := by decide

lemma stripHyphens_toList (s : String) :
    (stripHyphens s).toList = s.toList.filter (fun c => c ≠ '-') := rfl

/-- The code-side postal-code test (`replace("-","").isdigit()` and length
at least 5) coincides with the spec-side reading "only digits and hyphens
with at least 5 digits after stripping hyphens". -/
lemma zip_cond_iff (s : String) :
    (pyIsDigit (stripHyphens s) && decide (5 ≤ (stripHyphens s).toList.length)) = true
      ↔ ((∀ c ∈ s.toList, c.isDigit = true ∨ c = '-')
          ∧ 5 ≤ (s.toList.filter (fun c => c ≠ '-')).length) := by
  rw [Bool.and_eq_true, decide_eq_true_iff]
  simp only [pyIsDigit, stripHyphens_toList, Bool.and_eq_true, List.all_eq_true,
    Bool.not_eq_true']
  constructor
  · rintro ⟨⟨hne, hdig⟩, hlen⟩
    refine ⟨?_, hlen⟩
    intro c hc
    by_cases h : c = '-'
    · exact Or.inr h
    · exact Or.inl (hdig c (List.mem_filter.mpr ⟨hc, by simp [h]⟩))
  · rintro ⟨hall, hlen⟩
    refine ⟨⟨?_, ?_⟩, hlen⟩
    · have hpos : 0 < (s.toList.filter (fun c => c ≠ '-')).length := by omega
      rcases List.length_pos.mp hpos with hne
      cases hf : s.toList.filter (fun c => c ≠ '-') with
      | nil => exact absurd hf hne
      | cons a t => simp [List.isEmpty, hf] at hf ⊢
    · intro c hc
      rcases hall c (List.mem_filter.mp hc).1 with h | h
      · exact h
      · exfalso
        have := (List.mem_filter.mp hc).2
        simp [h] at this

/-- C1: empty or whitespace-only input is rejected; a non-empty input made
of digits and hyphens with at least 5 characters after stripping hyphens is
classified `"zip"`; every other non-empty input is classified `"city"`. -/
theorem claim_C1 (s : String) :
    ((s.toList = [] ∨ pyIsSpace s = true) → (validate_input s).1 = false)
    ∧ (¬(s.toList = [] ∨ pyIsSpace s = true) →
        (∀ c ∈ s.toList, c.isDigit = true ∨ c = '-') →
        5 ≤ (s.toList.filter (fun c => c ≠ '-')).length →
        validate_input s = (true, "zip"))
    ∧ (¬(s.toList = [] ∨ pyIsSpace s = true) →
        ¬((∀ c ∈ s.toList, c.isDigit = true ∨ c = '-')
            ∧ 5 ≤ (s.toList.filter (fun c => c ≠ '-')).length) →
        validate_input s = (true, "city")) := by
  have hinv : (s.toList.isEmpty || pyIsSpace s) = true
      ↔ (s.toList = [] ∨ pyIsSpace s = true) := by
    simp [List.isEmpty_iff]
  refine ⟨fun h => ?_, fun hne hall hlen => ?_, fun hne hnz => ?_⟩
  · unfold validate_input
    rw [if_pos (hinv.mpr h)]
  · unfold validate_input
    rw [if_neg (fun h => hne (hinv.mp h)),
      if_pos ((zip_cond_iff s).mpr ⟨hall, hlen⟩)]
  · unfold validate_input
    rw [if_neg (fun h => hne (hinv.mp h)),
      if_neg (fun h => hnz ((zip_cond_iff s).mp h))]

/-- C1 witness: the three branches at concrete inputs. -/
theorem claim_C1_witness :
    (validate_input "").1 = false
    ∧ validate_input "12-345" = (true, "zip")
    ∧ validate_input "hello" = (true, "city") :=
  ⟨(claim_C1 "").1 (Or.inl rfl),
   (claim_C1 "12-345").2.1 (by decide) (by decide) (by decide),
   (claim_C1 "hello").2.2 (by decide) (by decide)⟩

/-- Python `round` commutes with adding the integer 8 (the parity of the
floor is preserved, so the half-to-even tie-break is unchanged). -/
lemma pyRound_add_eight (x : ℚ) : pyRound (x + 8) = pyRound x + 8 := by
  have hfl : ratFloor (x + 8) = ratFloor x + 8 := by
    rw [ratFloor_eq, ratFloor_eq]
    exact_mod_cast Int.floor_add_int x 8
  unfold pyRound
  rw [hfl]
  have hsub : x + 8 - ((ratFloor x + 8 : ℤ) : ℚ) = x - ((ratFloor x : ℤ) : ℚ) := by
    push_cast
    ring
  rw [hsub]
  have hpar : (ratFloor x + 8) % 2 = ratFloor x % 2 := by omega
  rw [hpar]
  split_ifs <;> omega

/-- C2: the wind-degree-to-compass mapping of lines 124-129 is periodic with
period 360 degrees, and takes the claimed concrete values at 0, 45, 315,
360 and 400 degrees. -/
theorem claim_C2 :
    (∀ d : ℚ, compass d = compass (d + 360))
    ∧ compass 0 = "N" ∧ compass 45 = "NE" ∧ compass 315 = "NW"
    ∧ compass 360 = "N" ∧ compass 400 = "NE" := by
  refine ⟨fun d => ?_, ?_, ?_, ?_, ?_, ?_⟩
  · unfold compass
    have hdiv : (d + 360) / 45 = d / 45 + 8 := by ring
    rw [hdiv, pyRound_add_eight]
    have h81 : pyRound (d / 45) + 8 = pyRound (d / 45) + 8 * 1 := by ring
    rw [h81, Int.add_mul_emod_self_left]
  · have h : pyRound ((0 : ℚ) / 45) = 0 := by norm_num [pyRound, ratFloor_eq]
    simp only [compass, h]
    decide
  · have h : pyRound ((45 : ℚ) / 45) = 1 := by norm_num [pyRound, ratFloor_eq]
    simp only [compass, h]
    decide
  · have h : pyRound ((315 : ℚ) / 45) = 7 := by norm_num [pyRound, ratFloor_eq]
    simp only [compass, h]
    decide
  · have h : pyRound ((360 : ℚ) / 45) = 8 := by norm_num [pyRound, ratFloor_eq]
    simp only [compass, h]
    decide
  · have h : pyRound ((400 : ℚ) / 45) = 9 := by norm_num [pyRound, ratFloor_eq]
    simp only [compass, h]
    decide

lemma dropWhile_eq_self {p : Char → Bool} :
    ∀ l : List Char, (∀ c ∈ l, p c = false) → l.dropWhile p = l
  | [], _ => rfl
  | a :: t, h => by
    have ha := h a (List.mem_cons_self a t)
    simp [List.dropWhile_cons, ha]

/-- `strip()` is the identity on strings without leading or trailing
whitespace (in particular on whitespace-free strings). -/
lemma pyStrip_eq_self {s : String} (h : ∀ c ∈ s.toList, pyIsSpaceChar c = false) :
    pyStrip s = s := by
  unfold pyStrip
  rw [dropWhile_eq_self _ h,
    dropWhile_eq_self _ (fun c hc => h c (List.mem_reverse.mp hc)),
    List.reverse_reverse]
  rfl

/-- A `"zip"` classification means the code-side postal-code test held. -/
lemma validate_zip_elim {s : String} (h : validate_input s = (true, "zip")) :
    (pyIsDigit (stripHyphens s) && decide (5 ≤ (stripHyphens s).toList.length)) = true := by
  unfold validate_input at h
  by_cases h1 : (s.toList.isEmpty || pyIsSpace s) = true
  · rw [if_pos h1] at h
    exact absurd h (by simp)
  · rw [if_neg h1] at h
    by_cases h2 : (pyIsDigit (stripHyphens s)
        && decide (5 ≤ (stripHyphens s).toList.length)) = true
    · exact h2
    · rw [if_neg h2] at h
      exact absurd h (by decide)

/-- Strings classified `"zip"` consist of digits and hyphens only. -/
lemma validate_zip_chars {s : String} (h : validate_input s = (true, "zip")) :
    ∀ c ∈ s.toList, c.isDigit = true ∨ c = '-' :=
  ((zip_cond_iff s).mp (validate_zip_elim h)).1

lemma space_char_cases {c : Char} (h : pyIsSpaceChar c = true) :
    c = ' ' ∨ c = '\t' ∨ c = '\n' ∨ c = '\r' ∨ c = '\x0b' ∨ c = '\x0c' := by
  simpa [pyIsSpaceChar, Bool.or_eq_true, decide_eq_true_iff, or_assoc] using h

lemma digit_or_hyphen_not_space {c : Char} (h : c.isDigit = true ∨ c = '-') :
    pyIsSpaceChar c = false := by
  by_contra hc
  have hb : pyIsSpaceChar c = true := by
    cases hx : pyIsSpaceChar c
    · exact absurd hx hc
    · rfl
  rcases space_char_cases hb with rfl | rfl | rfl | rfl | rfl | rfl <;>
    rcases h with h | h <;> exact absurd h (by decide)

/-- Strings classified `"zip"` contain no whitespace, so `strip()` leaves
them unchanged. -/
lemma validate_zip_strip {s : String} (h : validate_input s = (true, "zip")) :
    pyStrip s = s :=
  pyStrip_eq_self (fun c hc => digit_or_hyphen_not_space (validate_zip_chars h c hc))

/-- C10: for every input classified as a postal code, the transmitted `zip`
parameter is the classified string verbatim (hyphens intact, nothing
stripped — such strings contain no whitespace) followed by a comma and the
country; concretely `"12345-6789"` is sent as `zip=12345-6789,US`. -/
theorem claim_C10 :
    (∀ s country api_key units, validate_input s = (true, "zip") →
      pyStrip s = s
      ∧ check_weather_zip_params api_key units s country
          = some (get_weather_by_zip_params api_key units s
              (if (pyStrip country).toList.isEmpty then "US" else pyStrip country))
      ∧ ("zip", s ++ ","
            ++ (if (pyStrip country).toList.isEmpty then "US" else pyStrip country))
          ∈ get_weather_by_zip_params api_key units s
              (if (pyStrip country).toList.isEmpty then "US" else pyStrip country))
    ∧ check_weather_zip_params "KEY" "metric" "12345-6789" ""
        = some [("zip", "12345-6789,US"), ("appid", "KEY"),
                ("units", "metric"), ("lang", "en")] := by
  constructor
  · intro s country api_key units h
    have hstrip := validate_zip_strip h
    refine ⟨hstrip, ?_, ?_⟩
    · simp [check_weather_zip_params, hstrip, h]
    · simp [get_weather_by_zip_params]
  · decide

/-- C10 witness: a hyphenated code with an explicit country. -/
theorem claim_C10_witness :
    pyStrip "12345-6789" = "12345-6789"
    ∧ check_weather_zip_params "KEY" "metric" "12345-6789" "DE"
        = some (get_weather_by_zip_params "KEY" "metric" "12345-6789"
            (if (pyStrip "DE").toList.isEmpty then "US" else pyStrip "DE"))
    ∧ ("zip", "12345-6789" ++ ","
          ++ (if (pyStrip "DE").toList.isEmpty then "US" else pyStrip "DE"))
        ∈ get_weather_by_zip_params "KEY" "metric" "12345-6789"
            (if (pyStrip "DE").toList.isEmpty then "US" else pyStrip "DE") :=
  claim_C10.1 "12345-6789" "DE" "KEY" "metric" (by decide)

/-- C9: the input `"10001"` is classified as a postal code, an empty country
prompt defaults to `"US"`, and the resulting request carries
`zip=10001,US`. -/
theorem claim_C9 (api_key units : String) :
    validate_input (pyStrip "10001") = (true, "zip")
    ∧ check_weather_zip_params api_key units "10001" ""
        = some (get_weather_by_zip_params api_key units "10001" "US")
    ∧ ("zip", "10001,US") ∈ get_weather_by_zip_params api_key units "10001" "US" := by
  refine ⟨by decide, rfl, ?_⟩
  have h : (("zip", "10001,US") : String × String)
      = ("zip", "10001" ++ "," ++ "US") := by decide
  rw [h]
  exact List.mem_cons_self _ _

/-- Only `set_units` changes the stored unit preference; every other loop
operation leaves it unchanged. -/
lemma foldl_stepUnits (st : String) :
    ∀ ops : List Op, (∀ op ∈ ops, op.isSetUnits = false) →
      List.foldl stepUnits st ops = st := by
  intro ops
  induction ops generalizing st with
  | nil => intro _; rfl
  | cons a t ih =>
    intro h
    have ha := h a (List.mem_cons_self a t)
    have hstep : stepUnits st a = st := by
      cases a with
      | setUnits u => simp [Op.isSetUnits] at ha
      | fetchCity n => rfl
      | fetchZip c k => rfl
      | render tz d => rfl
    rw [List.foldl_cons, hstep]
    exact ih st (fun op hop => h op (List.mem_cons_of_mem a hop))

/-- C5: the preference starts `"metric"`; `set_units` maps Fahrenheit-type
arguments to `"imperial"` and Celsius-type arguments to `"metric"`; the
rendered symbol is `"°F"` exactly in state `"imperial"` and `"°C"` in state
`"metric"`; the stored state persists across every non-`set_units`
operation; and every fetch sends `units=<state>`. -/
theorem claim_C5 :
    initialUnits = "metric"
    ∧ (∀ u, pyLower u ∈ (["f", "fahrenheit", "imperial"] : List String) →
        set_units u = "imperial")
    ∧ (∀ u, pyLower u ∈ (["c", "celsius", "metric"] : List String) →
        set_units u = "metric")
    ∧ unit_symbol "imperial" = "°F"
    ∧ unit_symbol "metric" = "°C"
    ∧ (∀ (st : String) (ops : List Op), (∀ op ∈ ops, op.isSetUnits = false) →
        List.foldl stepUnits st ops = st)
    ∧ (∀ api_key units city_name,
        ("units", units) ∈ get_weather_by_city_params api_key units city_name)
    ∧ (∀ api_key units zip_code country,
        ("units", units) ∈ get_weather_by_zip_params api_key units zip_code country) := by
  refine ⟨rfl, ?_, ?_, rfl, rfl, foldl_stepUnits, ?_, ?_⟩
  · intro u hu
    simp only [List.mem_cons, List.not_mem_nil, or_false] at hu
    rcases hu with h | h | h <;> (unfold set_units; rw [h]; decide)
  · intro u hu
    simp only [List.mem_cons, List.not_mem_nil, or_false] at hu
    rcases hu with h | h | h <;> (unfold set_units; rw [h]; decide)
  · intro api_key units city_name
    simp [get_weather_by_city_params]
  · intro api_key units zip_code country
    simp [get_weather_by_zip_params]

/-- C5 witness: set Fahrenheit, run non-`set_units` operations, read the
symbol, fetch. -/
theorem claim_C5_witness :
    set_units "fahrenheit" = "imperial"
    ∧ set_units "celsius" = "metric"
    ∧ List.foldl stepUnits "imperial"
        [Op.fetchCity "Paris", Op.render 0 Json.null, Op.fetchZip "10001" "US"]
        = "imperial"
    ∧ ("units", "imperial") ∈ get_weather_by_city_params "KEY" "imperial" "Paris" :=
  ⟨claim_C5.2.1 "fahrenheit" (by decide),
   claim_C5.2.2.1 "celsius" (by decide),
   claim_C5.2.2.2.2.2.1 "imperial"
     [Op.fetchCity "Paris", Op.render 0 Json.null, Op.fetchZip "10001" "US"]
     (by decide),
   claim_C5.2.2.2.2.2.2.1 "KEY" "imperial" "Paris"⟩

/-- C6: a connection failure, an HTTP error status (the 400-599 range
raised by `raise_for_status`) and an unparseable body all produce the same
`None` result — the caller cannot distinguish them. -/
theorem claim_C6 :
    get_weather HttpOutcome.connError = none
    ∧ (∀ status body, 400 ≤ status → status < 600 →
        get_weather (.response status body) = none)
    ∧ (∀ status, get_weather (.response status none) = none) := by
  refine ⟨rfl, ?_, ?_⟩
  · intro st b h1 h2
    simp [get_weather, h1, h2]
  · intro st
    by_cases h : 400 ≤ st ∧ st < 600 <;> simp [get_weather, h]

/-- C6 witness: an HTTP 404 with a valid body and an HTTP 200 with an
unparseable body both yield `none`, like a connection failure. -/
theorem claim_C6_witness :
    get_weather (HttpOutcome.response 404 (some (Json.obj []))) = none
    ∧ get_weather (HttpOutcome.response 200 none) = none :=
  ⟨claim_C6.2.1 404 (some (Json.obj [])) (by norm_num) (by norm_num),
   claim_C6.2.2 200⟩

/-- Line 74-76: a falsy value prints only the no-data message. -/
lemma display_not_truthy {units : String} {tz : ℤ} {r : Json}
    (h : r.truthy = false) :
    display_weather units tz r = ["No weather data to display."] := by
  simp [display_weather, h]

/-- Lines 78-80: a truthy response whose `cod` differs from `200` prints only
the error line. -/
lemma display_error {units : String} {tz : ℤ} {r : Json}
    (h1 : r.truthy = true)
    (h2 : Json.beq (pyGetNone r "cod") (Json.num 200) = false) :
    display_weather units tz r
      = ["Error: " ++ pyStr (pyGetD r "message" (Json.str "Unknown error"))] := by
  simp [display_weather, h1, h2]

/-- Lines 82-163: a truthy response with `cod = 200` prints the full report. -/
lemma display_ok {units : String} {tz : ℤ} {r : Json}
    (h1 : r.truthy = true)
    (h2 : Json.beq (pyGetNone r "cod") (Json.num 200) = true) :
    display_weather units tz r = successLines units tz r := by
  simp [display_weather, h1, h2]

/-- C3 counterexample: the empty JSON object is a response whose `cod` field
is not 200, yet rendering it prints the no-data message, not an error line
built from the `message` field. -/
theorem claim_C3_counterexample :
    Json.beq (pyGetNone (Json.obj []) "cod") (Json.num 200) = false
    ∧ display_weather "metric" 0 (Json.obj []) = ["No weather data to display."]
    ∧ display_weather "metric" 0 (Json.obj [])
        ≠ ["Error: "
            ++ pyStr (pyGetD (Json.obj []) "message" (Json.str "Unknown error"))] := by
  refine ⟨rfl, rfl, ?_⟩
  decide

/-- C3 (amended): for every non-empty (truthy) response object whose `cod`
field differs from the success sentinel 200, the rendered output is exactly
one error line built from the `message` field (defaulting to
"Unknown error"); no weather line is rendered. -/
theorem claim_C3 (units : String) (tz : ℤ) (r : Json)
    (hobj : r.isObj = true) (h1 : r.truthy = true)
    (h2 : Json.beq (pyGetNone r "cod") (Json.num 200) = false) :
    display_weather units tz r
      = ["Error: " ++ pyStr (pyGetD r "message" (Json.str "Unknown error"))] :=
  display_error h1 h2

/-- C3 witness: a 404-style body renders as a single error line. -/
theorem claim_C3_witness :
    display_weather "metric" 0
        (Json.obj [("cod", Json.num 404), ("message", Json.str "city not found")])
      = ["Error: city not found"] := by
  have h := claim_C3 "metric" 0
    (Json.obj [("cod", Json.num 404), ("message", Json.str "city not found")])
    (by decide) (by decide) (by decide)
  rw [h]
  decide

/-- C7: on a success response whose `wind.deg` field is absent, the rendered
report is exactly the 17 lines below — the wind-speed line is present and no
wind-direction line exists (it is omitted, not rendered as "N/A"). -/
theorem claim_C7 (units : String) (tz : ℤ) (r : Json)
    (hwf : WF r = true) (h1 : r.truthy = true)
    (h2 : Json.beq (pyGetNone r "cod") (Json.num 200) = true)
    (hdeg : Json.find? (pyGetD r "wind" (Json.obj [])) "deg" = none) :
    display_weather units tz r =
      ["\n" ++ bar50,
       "WEATHER FORECAST - " ++ pyStr (pyGetD r "name" (Json.str "Unknown")) ++ ", "
         ++ pyStr (pyGetD (pyGetD r "sys" (Json.obj [])) "country" (Json.str "")),
       bar50,
       "\n🌤️  Current Conditions: "
         ++ pyTitle ((pyGetD (weather0 r) "description" (Json.str "N/A")).asStrD ""),
       "🌡️  Temperature: " ++ pyStr (pyGetD (pyGetD r "main" (Json.obj [])) "temp" (Json.str "N/A"))
         ++ unit_symbol units ++ " (Feels like: "
         ++ pyStr (pyGetD (pyGetD r "main" (Json.obj [])) "feels_like" (Json.str "N/A"))
         ++ unit_symbol units ++ ")",
       "💧 Humidity: " ++ pyStr (pyGetD (pyGetD r "main" (Json.obj [])) "humidity" (Json.str "N/A")) ++ "%",
       "📊 Pressure: " ++ pyStr (pyGetD (pyGetD r "main" (Json.obj [])) "pressure" (Json.str "N/A")) ++ " hPa",
       "💨 Wind Speed: " ++ pyStr (pyGetD (pyGetD r "wind" (Json.obj [])) "speed" (Json.str "N/A")) ++ " m/s",
       (if (pyGetD r "visibility" (Json.str "N/A")).beq (Json.str "N/A") = false then
          "👁️  Visibility: " ++ pyStr (pyGetD r "visibility" (Json.str "N/A")) ++ " meters"
        else "👁️  Visibility: N/A"),
       "🌅 Sunrise: "
         ++ (if (pyGetNone (pyGetD r "sys" (Json.obj [])) "sunrise").truthy then
              formatHMS tz ((pyGetNone (pyGetD r "sys" (Json.obj [])) "sunrise").asRatD 0)
            else "N/A"),
       "🌇 Sunset: "
         ++ (if (pyGetNone (pyGetD r "sys" (Json.obj [])) "sunset").truthy then
              formatHMS tz ((pyGetNone (pyGetD r "sys" (Json.obj [])) "sunset").asRatD 0)
            else "N/A"),
       "\n" ++ bar30,
       "Additional Details:",
       bar30,
       "Weather Icon: "
         ++ (icons.lookup (pyLower ((pyGetD (weather0 r) "main" (Json.str "")).asStrD ""))).getD "🌈",
       "☁️  Cloud Coverage: " ++ pyStr (pyGetD (pyGetD r "clouds" (Json.obj [])) "all" (Json.str "N/A")) ++ "%",
       bar50 ++ "\n"] := by
  rw [display_ok h1 h2]
  have hwd : pyGetD (pyGetD r "wind" (Json.obj [])) "deg" (Json.str "N/A")
      = Json.str "N/A" := by
    show (Json.find? (pyGetD r "wind" (Json.obj [])) "deg").getD (Json.str "N/A")
        = Json.str "N/A"
    rw [hdeg]
    rfl
  simp only [successLines]
  rw [hwd]
  simp [Json.beq]

/-- C7 witness: a success response with wind speed but no `wind.deg`. -/
theorem claim_C7_witness :
    display_weather "metric" 0
        (Json.obj [("cod", Json.num 200), ("wind", Json.obj [("speed", Json.num 5)])])
      = ["\n" ++ bar50,
         "WEATHER FORECAST - Unknown, ",
         bar50,
         "\n🌤️  Current Conditions: N/A",
         "🌡️  Temperature: N/A°C (Feels like: N/A°C)",
         "💧 Humidity: N/A%",
         "📊 Pressure: N/A hPa",
         "💨 Wind Speed: 5 m/s",
         "👁️  Visibility: N/A",
         "🌅 Sunrise: N/A",
         "🌇 Sunset: N/A",
         "\n" ++ bar30,
         "Additional Details:",
         bar30,
         "Weather Icon: 🌈",
         "☁️  Cloud Coverage: N/A%",
         bar50 ++ "\n"] := by
  rw [claim_C7 "metric" 0
    (Json.obj [("cod", Json.num 200), ("wind", Json.obj [("speed", Json.num 5)])])
    (by decide) (by decide) (by decide) rfl]
  decide

/-- A success response whose sunrise and sunset epochs are present with
value 0 (midnight UTC, 1970-01-01 — a perfectly valid epoch). -/
def respSunZero : Json :=
  Json.obj [("cod", Json.num 200),
    ("sys", Json.obj [("sunrise", Json.num 0), ("sunset", Json.num 0)])]

/-- A success response with ordinary sunrise/sunset epochs. -/
def respSun : Json :=
  Json.obj [("cod", Json.num 200),
    ("sys", Json.obj [("sunrise", Json.num 30000), ("sunset", Json.num 60000)])]

/-- C8 counterexample: the `sunrise` field is present (with the valid epoch
0), yet the code's truthiness test `if sunrise:` treats it as missing and
renders "N/A" instead of the formatted local time 00:00:00. -/
theorem claim_C8_counterexample :
    Json.find? (pyGetD respSunZero "sys" (Json.obj [])) "sunrise" = some (Json.num 0)
    ∧ "🌅 Sunrise: N/A" ∈ display_weather "metric" 0 respSunZero
    ∧ ("🌅 Sunrise: " ++ formatHMS 0 0) ∉ display_weather "metric" 0 respSunZero :=
  ⟨rfl, by decide, by decide⟩

/-- C8 (amended): on a success response, a sunrise (resp. sunset) epoch that
is present with a nonzero value is rendered as local wall-clock time in
`HH:MM:SS` form; an absent — or zero-valued, since the code tests
truthiness rather than presence — epoch is rendered as "N/A". -/
theorem claim_C8 (units : String) (tz : ℤ) (r : Json)
    (hwf : WF r = true) (h1 : r.truthy = true)
    (h2 : Json.beq (pyGetNone r "cod") (Json.num 200) = true) :
    ((Json.find? (pyGetD r "sys" (Json.obj [])) "sunrise" = none →
        "🌅 Sunrise: N/A" ∈ display_weather units tz r)
      ∧ (Json.find? (pyGetD r "sys" (Json.obj [])) "sunrise" = some (Json.num 0) →
          "🌅 Sunrise: N/A" ∈ display_weather units tz r)
      ∧ (∀ q : ℚ, q ≠ 0 →
          Json.find? (pyGetD r "sys" (Json.obj [])) "sunrise" = some (Json.num q) →
          ("🌅 Sunrise: " ++ formatHMS tz q) ∈ display_weather units tz r))
    ∧ ((Json.find? (pyGetD r "sys" (Json.obj [])) "sunset" = none →
          "🌇 Sunset: N/A" ∈ display_weather units tz r)
      ∧ (Json.find? (pyGetD r "sys" (Json.obj [])) "sunset" = some (Json.num 0) →
          "🌇 Sunset: N/A" ∈ display_weather units tz r)
      ∧ (∀ q : ℚ, q ≠ 0 →
          Json.find? (pyGetD r "sys" (Json.obj [])) "sunset" = some (Json.num q) →
          ("🌇 Sunset: " ++ formatHMS tz q) ∈ display_weather units tz r))
    ∧ (∀ t : ℚ, ∃ hh mm ss, hh < 24 ∧ mm < 60 ∧ ss < 60
        ∧ formatHMS tz t = pad2 hh ++ ":" ++ pad2 mm ++ ":" ++ pad2 ss) := by
  rw [display_ok h1 h2]
  refine ⟨⟨?_, ?_, ?_⟩, ⟨?_, ?_, ?_⟩, ?_⟩
  · intro hs
    have e : pyGetNone (pyGetD r "sys" (Json.obj [])) "sunrise" = Json.null := by
      show (Json.find? (pyGetD r "sys" (Json.obj [])) "sunrise").getD Json.null = Json.null
      rw [hs]
      rfl
    simp [successLines, e, Json.truthy]
  · intro hs
    have e : pyGetNone (pyGetD r "sys" (Json.obj [])) "sunrise" = Json.num 0 := by
      show (Json.find? (pyGetD r "sys" (Json.obj [])) "sunrise").getD Json.null = Json.num 0
      rw [hs]
      rfl
    simp [successLines, e, Json.truthy]
  · intro q hq hs
    have e : pyGetNone (pyGetD r "sys" (Json.obj [])) "sunrise" = Json.num q := by
      show (Json.find? (pyGetD r "sys" (Json.obj [])) "sunrise").getD Json.null = Json.num q
      rw [hs]
      rfl
    simp [successLines, e, Json.truthy, Json.asRatD, hq]
  · intro hs
    have e : pyGetNone (pyGetD r "sys" (Json.obj [])) "sunset" = Json.null := by
      show (Json.find? (pyGetD r "sys" (Json.obj [])) "sunset").getD Json.null = Json.null
      rw [hs]
      rfl
    simp [successLines, e, Json.truthy]
  · intro hs
    have e : pyGetNone (pyGetD r "sys" (Json.obj [])) "sunset" = Json.num 0 := by
      show (Json.find? (pyGetD r "sys" (Json.obj [])) "sunset").getD Json.null = Json.num 0
      rw [hs]
      rfl
    simp [successLines, e, Json.truthy]
  · intro q hq hs
    have e : pyGetNone (pyGetD r "sys" (Json.obj [])) "sunset" = Json.num q := by
      show (Json.find? (pyGetD r "sys" (Json.obj [])) "sunset").getD Json.null = Json.num q
      rw [hs]
      rfl
    simp [successLines, e, Json.truthy, Json.asRatD, hq]
  · intro t
    have h0 : 0 ≤ (ratFloor t + tz).emod 86400 := Int.emod_nonneg _ (by norm_num)
    have hlt : (ratFloor t + tz).emod 86400 < 86400 :=
      Int.emod_lt_of_pos _ (by norm_num)
    have hsec : ((ratFloor t + tz).emod 86400).toNat < 86400 := by omega
    refine ⟨((ratFloor t + tz).emod 86400).toNat / 3600,
           ((ratFloor t + tz).emod 86400).toNat % 3600 / 60,
           ((ratFloor t + tz).emod 86400).toNat % 60, ?_, ?_, ?_, rfl⟩
    · exact Nat.div_lt_of_lt_mul (by omega)
    · exact Nat.div_lt_of_lt_mul (Nat.lt_of_lt_of_le (Nat.mod_lt _ (by norm_num)) (by norm_num))
    · exact Nat.mod_lt _ (by norm_num)

/-- C8 witness: at offset 0, the epoch 30000 renders as 08:20:00. -/
theorem claim_C8_witness :
    ("🌅 Sunrise: " ++ formatHMS 0 30000) ∈ display_weather "metric" 0 respSun
    ∧ formatHMS 0 30000 = "08:20:00" :=
  ⟨(claim_C8 "metric" 0 respSun (by decide) (by decide) (by decide)).1.2.2
      30000 (by norm_num) rfl,
   by decide⟩

/-- A minimal success response: every optional field absent. -/
def respBare : Json := Json.obj [("cod", Json.num 200)]

/-- C4 counterexample: on a success response with every field absent, the
city renders as "Unknown" and the country as the empty string — not as the
"N/A" placeholder the claim asserts for every field (wind direction is
likewise omitted rather than shown as "N/A"). -/
theorem claim_C4_counterexample :
    Json.find? respBare "name" = none
    ∧ display_weather "metric" 0 respBare =
      ["\n" ++ bar50,
       "WEATHER FORECAST - Unknown, ",
       bar50,
       "\n🌤️  Current Conditions: N/A",
       "🌡️  Temperature: N/A°C (Feels like: N/A°C)",
       "💧 Humidity: N/A%",
       "📊 Pressure: N/A hPa",
       "💨 Wind Speed: N/A m/s",
       "👁️  Visibility: N/A",
       "🌅 Sunrise: N/A",
       "🌇 Sunset: N/A",
       "\n" ++ bar30,
       "Additional Details:",
       bar30,
       "Weather Icon: 🌈",
       "☁️  Cloud Coverage: N/A%",
       bar50 ++ "\n"]
    ∧ "WEATHER FORECAST - N/A, N/A" ∉ display_weather "metric" 0 respBare :=
  ⟨rfl, by decide, by decide⟩

lemma WF_deg {r : Json} (hwf : WF r = true) : degOK r = true := by
  simp [WF, Bool.and_eq_true] at hwf
  tauto

/-- C4 (amended): on a well-shaped success response every field is extracted
independently and rendering always produces the complete report (17 lines,
18 when a wind direction is present) — a missing field never aborts the
rest.  An absent temperature, feels-like, humidity, pressure, condition
description, wind speed, visibility, sunrise, sunset or cloud-coverage
field renders as the "N/A" placeholder; an absent city name renders as
"Unknown", an absent country as the empty string, an absent condition
keyword falls back to the default icon, and an absent wind direction omits
its line. -/
theorem claim_C4 (units : String) (tz : ℤ) (r : Json)
    (hwf : WF r = true) (h1 : r.truthy = true)
    (h2 : Json.beq (pyGetNone r "cod") (Json.num 200) = true) :
    (Json.find? r "name" = none →
      ("WEATHER FORECAST - Unknown, "
          ++ pyStr (pyGetD (pyGetD r "sys" (Json.obj [])) "country" (Json.str "")))
        ∈ display_weather units tz r)
    ∧ (Json.find? (pyGetD r "sys" (Json.obj [])) "country" = none →
      ("WEATHER FORECAST - " ++ pyStr (pyGetD r "name" (Json.str "Unknown")) ++ ", ")
        ∈ display_weather units tz r)
    ∧ (Json.find? (pyGetD r "main" (Json.obj [])) "temp" = none →
      ("🌡️  Temperature: N/A" ++ unit_symbol units ++ " (Feels like: "
          ++ pyStr (pyGetD (pyGetD r "main" (Json.obj [])) "feels_like" (Json.str "N/A"))
          ++ unit_symbol units ++ ")")
        ∈ display_weather units tz r)
    ∧ (Json.find? (pyGetD r "main" (Json.obj [])) "feels_like" = none →
      ("🌡️  Temperature: "
          ++ pyStr (pyGetD (pyGetD r "main" (Json.obj [])) "temp" (Json.str "N/A"))
          ++ unit_symbol units ++ " (Feels like: " ++ "N/A" ++ unit_symbol units ++ ")")
        ∈ display_weather units tz r)
    ∧ (Json.find? (pyGetD r "main" (Json.obj [])) "humidity" = none →
      "💧 Humidity: N/A%" ∈ display_weather units tz r)
    ∧ (Json.find? (pyGetD r "main" (Json.obj [])) "pressure" = none →
      "📊 Pressure: N/A hPa" ∈ display_weather units tz r)
    ∧ (Json.find? (weather0 r) "description" = none →
      "\n🌤️  Current Conditions: N/A" ∈ display_weather units tz r)
    ∧ (Json.find? (pyGetD r "wind" (Json.obj [])) "speed" = none →
      "💨 Wind Speed: N/A m/s" ∈ display_weather units tz r)
    ∧ (Json.find? r "visibility" = none →
      "👁️  Visibility: N/A" ∈ display_weather units tz r)
    ∧ (Json.find? (pyGetD r "sys" (Json.obj [])) "sunrise" = none →
      "🌅 Sunrise: N/A" ∈ display_weather units tz r)
    ∧ (Json.find? (pyGetD r "sys" (Json.obj [])) "sunset" = none →
      "🌇 Sunset: N/A" ∈ display_weather units tz r)
    ∧ (Json.find? (pyGetD r "clouds" (Json.obj [])) "all" = none →
      "☁️  Cloud Coverage: N/A%" ∈ display_weather units tz r)
    ∧ (Json.find? (weather0 r) "main" = none →
      "Weather Icon: 🌈" ∈ display_weather units tz r)
    ∧ (Json.find? (pyGetD r "wind" (Json.obj [])) "deg" = none →
      (display_weather units tz r).length = 17)
    ∧ (∀ q : ℚ, Json.find? (pyGetD r "wind" (Json.obj [])) "deg" = some (Json.num q) →
      (display_weather units tz r).length = 18) := by
  rw [display_ok h1 h2]
  refine ⟨?_, ?_, ?_, ?_, ?_, ?_, ?_, ?_, ?_, ?_, ?_, ?_, ?_, ?_, ?_⟩
  · intro h
    have e : pyGetD r "name" (Json.str "Unknown") = Json.str "Unknown" := by
      show (Json.find? r "name").getD (Json.str "Unknown") = Json.str "Unknown"
      rw [h]
      rfl
    simp [successLines, e, pyStr]
  · intro h
    have e : pyGetD (pyGetD r "sys" (Json.obj [])) "country" (Json.str "")
        = Json.str "" := by
      show (Json.find? (pyGetD r "sys" (Json.obj [])) "country").getD (Json.str "")
          = Json.str ""
      rw [h]
      rfl
    simp [successLines, e, pyStr]
  · intro h
    have e : pyGetD (pyGetD r "main" (Json.obj [])) "temp" (Json.str "N/A")
        = Json.str "N/A" := by
      show (Json.find? (pyGetD r "main" (Json.obj [])) "temp").getD (Json.str "N/A")
          = Json.str "N/A"
      rw [h]
      rfl
    simp [successLines, e, pyStr]
  · intro h
    have e : pyGetD (pyGetD r "main" (Json.obj [])) "feels_like" (Json.str "N/A")
        = Json.str "N/A" := by
      show (Json.find? (pyGetD r "main" (Json.obj [])) "feels_like").getD (Json.str "N/A")
          = Json.str "N/A"
      rw [h]
      rfl
    simp [successLines, e, pyStr]
  · intro h
    have e : pyGetD (pyGetD r "main" (Json.obj [])) "humidity" (Json.str "N/A")
        = Json.str "N/A" := by
      show (Json.find? (pyGetD r "main" (Json.obj [])) "humidity").getD (Json.str "N/A")
          = Json.str "N/A"
      rw [h]
      rfl
    simp [successLines, e, pyStr]
  · intro h
    have e : pyGetD (pyGetD r "main" (Json.obj [])) "pressure" (Json.str "N/A")
        = Json.str "N/A" := by
      show (Json.find? (pyGetD r "main" (Json.obj [])) "pressure").getD (Json.str "N/A")
          = Json.str "N/A"
      rw [h]
      rfl
    simp [successLines, e, pyStr]
  · intro h
    have e : pyGetD (weather0 r) "description" (Json.str "N/A") = Json.str "N/A" := by
      show (Json.find? (weather0 r) "description").getD (Json.str "N/A") = Json.str "N/A"
      rw [h]
      rfl
    have edesc : pyTitle ((Json.str "N/A").asStrD "") = "N/A" := by decide
    simp [successLines, e, edesc, pyStr]
  · intro h
    have e : pyGetD (pyGetD r "wind" (Json.obj [])) "speed" (Json.str "N/A")
        = Json.str "N/A" := by
      show (Json.find? (pyGetD r "wind" (Json.obj [])) "speed").getD (Json.str "N/A")
          = Json.str "N/A"
      rw [h]
      rfl
    simp [successLines, e, pyStr]
  · intro h
    have e : pyGetD r "visibility" (Json.str "N/A") = Json.str "N/A" := by
      show (Json.find? r "visibility").getD (Json.str "N/A") = Json.str "N/A"
      rw [h]
      rfl
    simp [successLines, e, Json.beq, pyStr]
  · intro h
    have e : pyGetNone (pyGetD r "sys" (Json.obj [])) "sunrise" = Json.null := by
      show (Json.find? (pyGetD r "sys" (Json.obj [])) "sunrise").getD Json.null = Json.null
      rw [h]
      rfl
    simp [successLines, e, Json.truthy]
  · intro h
    have e : pyGetNone (pyGetD r "sys" (Json.obj [])) "sunset" = Json.null := by
      show (Json.find? (pyGetD r "sys" (Json.obj [])) "sunset").getD Json.null = Json.null
      rw [h]
      rfl
    simp [successLines, e, Json.truthy]
  · intro h
    have e : pyGetD (pyGetD r "clouds" (Json.obj [])) "all" (Json.str "N/A")
        = Json.str "N/A" := by
      show (Json.find? (pyGetD r "clouds" (Json.obj [])) "all").getD (Json.str "N/A")
          = Json.str "N/A"
      rw [h]
      rfl
    simp [successLines, e, pyStr]
  · intro h
    have e : pyGetD (weather0 r) "main" (Json.str "") = Json.str "" := by
      show (Json.find? (weather0 r) "main").getD (Json.str "") = Json.str ""
      rw [h]
      rfl
    have eic : (icons.lookup (pyLower ((Json.str "").asStrD ""))).getD "🌈" = "🌈" := by
      decide
    simp [successLines, e, eic, pyStr]
  · intro h
    have e : pyGetD (pyGetD r "wind" (Json.obj [])) "deg" (Json.str "N/A")
        = Json.str "N/A" := by
      show (Json.find? (pyGetD r "wind" (Json.obj [])) "deg").getD (Json.str "N/A")
          = Json.str "N/A"
      rw [h]
      rfl
    simp [successLines, e, Json.beq, pyStr]
  · intro q h
    have e : pyGetD (pyGetD r "wind" (Json.obj [])) "deg" (Json.str "N/A")
        = Json.num q := by
      show (Json.find? (pyGetD r "wind" (Json.obj [])) "deg").getD (Json.str "N/A")
          = Json.num q
      rw [h]
      rfl
    simp [successLines, e, Json.beq, pyStr]

/-- C4 witness: on the all-fields-absent success response, humidity renders
as "N/A", the icon falls back to the default, and the report is complete
(17 lines). -/
theorem claim_C4_witness :
    "💧 Humidity: N/A%" ∈ display_weather "metric" 0 respBare
    ∧ "Weather Icon: 🌈" ∈ display_weather "metric" 0 respBare
    ∧ (display_weather "metric" 0 respBare).length = 17 :=
  ⟨(claim_C4 "metric" 0 respBare (by decide) (by decide) (by decide)).2.2.2.2.1 rfl,
   (claim_C4 "metric" 0 respBare (by decide) (by decide) (by decide)).2.2.2.2.2.2.2.2.2.2.2.2.1 rfl,
   (claim_C4 "metric" 0 respBare (by decide) (by decide) (by decide)).2.2.2.2.2.2.2.2.2.2.2.2.2.1 rfl⟩
